import Mathlib

/-!
Verification development for the secureguarddrift drift-analysis pipeline.

The Python source is shallowly embedded: dataclasses become structures,
Python `float` arithmetic is modelled by exact rational arithmetic (`Rat`),
Python `int` by `Int`/`Nat`, Python strings by `String` (SQLite TEXT ordering
and Python tuple ordering are both codepoint-lexicographic, matching the
`LinearOrder String` instance), and the SQLite database of `graph/storage.py`
by an explicit record of row lists.
-/

namespace SGD

/-! ### Python string helpers -/

/-- Models Python `str.replace(pat, "")` on char lists: removes every
non-overlapping occurrence of `pat`, scanning left to right.  Used by
`rule_bypass_gateway` (`drift/rules.py`).  Structural recursion on a fuel
counter (every step consumes at least one character, so `s.length` fuel is
always enough and the fuel-0 fallback is unreachable). -/
def removeAllFuel (pat : List Char) : Nat → List Char → List Char
  | 0, s => s
  | _ + 1, [] => []
  | fuel + 1, c :: rest =>
      if pat ≠ [] ∧ List.take pat.length (c :: rest) = pat then
        removeAllFuel pat fuel (List.drop pat.length (c :: rest))
      else
        c :: removeAllFuel pat fuel rest

def removeAllAux (pat s : List Char) : List Char := removeAllFuel pat s.length s

/-- Python `s.replace(pat, "")` on `String`. -/
def pyRemoveAll (s pat : String) : String := String.mk (removeAllAux pat.data s.data)

/-- Substring test on char lists: does `pat` occur inside `s`? -/
def listHasSub (pat : List Char) : List Char → Bool
  | [] => pat.isEmpty
  | c :: rest =>
      if List.take pat.length (c :: rest) = pat then true else listHasSub pat rest

/-- Models Python `pat in s` (substring containment). -/
def pyContains (s pat : String) : Bool := listHasSub pat.data s.data

/-- Round half to even (banker's rounding), as Python's `round` on the exact
value. -/
def roundHalfEven (x : Rat) : Int :=
  let f : Int := ⌊x⌋
  let frac : Rat := x - f
  if frac < 1/2 then f
  else if 1/2 < frac then f + 1
  else if f % 2 = 0 then f else f + 1

/-- Python `round(x, n)` modelled on exact rationals. -/
def pyRound (x : Rat) (n : Nat) : Rat :=
  (roundHalfEven (x * 10 ^ n) : Rat) / 10 ^ n

/-! ### Data model (`graph/models.py`) -/

/-- `Node` dataclass.  Python field `namespace` is a Lean keyword and is
rendered `nspace`. -/
structure Node where
  name : String
  nspace : String := "default"
  node_type : String := "service"
deriving DecidableEq, Repr

/-- `Edge` dataclass. -/
structure Edge where
  source : String
  destination : String
  request_count : Nat := 0
  error_count : Nat := 0
  avg_latency_ms : Rat := 0
  p99_latency_ms : Rat := 0
deriving DecidableEq, Repr

/-- `Edge.edge_key`. -/
def Edge.edge_key (e : Edge) : String × String := (e.source, e.destination)

/-- `Edge.error_rate`: `error_count / request_count` (or 0.0). -/
def Edge.error_rate (e : Edge) : Rat :=
  if e.request_count = 0 then 0 else (e.error_count : Rat) / (e.request_count : Rat)

/-- `Snapshot` dataclass (`snapshot_id` defaults are irrelevant to the
claims; timestamps are modelled as integers, order-isomorphic to the ISO
strings the store serializes). -/
structure Snapshot where
  snapshot_id : String := ""
  timestamp_start : Int := 0
  timestamp_end : Int := 0
  edges : List Edge := []
  nodes : List Node := []
deriving DecidableEq, Repr

/-! ### Drift events (`drift/detector.py`) -/

/-- The numeric/text keys the code ever reads or writes in the `details`
dict of a `DriftEvent`. -/
structure Details where
  description : Option String := none
  baseline_value : Option Rat := none
  current_value : Option Rat := none
  change_factor : Option Rat := none
  request_count : Option Rat := none
deriving DecidableEq, Repr

/-- `DriftEvent` dataclass. -/
structure DriftEvent where
  event_type : String
  source : String
  destination : String
  severity : String := "medium"
  details : Details := {}
deriving DecidableEq, Repr

/-! ### Rule engine (`drift/rules.py`) -/

def SENSITIVE_SERVICES : List String := ["payments-db", "users-db", "orders-db", "auth-svc"]

def GATEWAY_SERVICES : List String := ["api-gateway"]

def DB_OWNER : List (String × String) :=
  [("payments-db", "payment-svc"), ("users-db", "user-svc"), ("orders-db", "order-svc")]

/-- `RuleResult` dataclass. -/
structure RuleResult where
  rule_name : String
  triggered : Bool
  reason : String
  severity_boost : Int
deriving DecidableEq, Repr

/-- `rule_sensitive_target`. -/
def rule_sensitive_target (event : DriftEvent) : RuleResult :=
  let hit := event.destination ∈ SENSITIVE_SERVICES
  { rule_name := "sensitive_target"
    triggered := hit
    reason := if hit then "Связь направлена к чувствительному сервису " ++ event.destination else ""
    severity_boost := if hit then 30 else 0 }

/-- `rule_bypass_gateway`.  The source strips with `str.replace`, i.e. it
removes every occurrence of `"-svc"` / `"-db"`, not only a suffix. -/
def rule_bypass_gateway (event : DriftEvent) : RuleResult :=
  if event.event_type ≠ "new_edge" then ⟨"bypass_gateway", false, "", 0⟩
  else if event.source ∈ GATEWAY_SERVICES then ⟨"bypass_gateway", false, "", 0⟩
  else
    let src_base := pyRemoveAll event.source "-svc"
    let dst_base := pyRemoveAll event.destination "-db"
    let hit := src_base ≠ dst_base
    { rule_name := "bypass_gateway"
      triggered := hit
      reason := if hit then "Прямая связь минуя API gateway" else ""
      severity_boost := if hit then 20 else 0 }

/-- `rule_database_direct_access`. -/
def rule_database_direct_access (event : DriftEvent) : RuleResult :=
  if ¬ (pyContains event.destination "-db") then ⟨"database_direct_access", false, "", 0⟩
  else
    let expected := DB_OWNER.lookup event.destination
    let hit := expected.isSome ∧ expected ≠ some event.source
    { rule_name := "database_direct_access"
      triggered := hit
      reason := if hit then
          "Прямой доступ к БД " ++ event.destination ++ " от неожиданного сервиса " ++ event.source
        else ""
      severity_boost := if hit then 30 else 0 }

/-- `rule_high_error_rate`. -/
def rule_high_error_rate (event : DriftEvent) : RuleResult :=
  if event.event_type ≠ "error_spike" then ⟨"high_error_rate", false, "", 0⟩
  else
    let cur := (event.details.current_value).getD 0
    let hit := (0.10 : Rat) < cur
    { rule_name := "high_error_rate"
      triggered := hit
      reason := if hit then "Уровень ошибок превышает 10%" else ""
      severity_boost := if hit then 20 else 0 }

/-- `rule_blast_radius`. -/
def rule_blast_radius (event : DriftEvent) : RuleResult :=
  let hit := event.event_type = "blast_radius_increase"
  { rule_name := "blast_radius"
    triggered := hit
    reason := if hit then "Поверхность атаки сервиса " ++ event.source ++ " увеличилась" else ""
    severity_boost := if hit then 15 else 0 }

def ALL_RULES : List (DriftEvent → RuleResult) :=
  [rule_sensitive_target, rule_bypass_gateway, rule_database_direct_access,
   rule_high_error_rate, rule_blast_radius]

/-- `evaluate_rules`: run every rule, keep only the triggered ones
(declaration order preserved). -/
def evaluate_rules (event : DriftEvent) : List RuleResult :=
  (ALL_RULES.map (fun fn => fn event)).filter (fun r => r.triggered)

/-! ### Base scorer (`drift/scorer.py`) -/

def BASE_SCORES : List (String × Int) :=
  [("new_edge", 40), ("removed_edge", 20), ("error_spike", 35),
   ("latency_spike", 25), ("traffic_spike", 30), ("blast_radius_increase", 35)]

/-- `BASE_SCORES.get(event_type, 10)`. -/
def baseScoreOf (event_type : String) : Int := (BASE_SCORES.lookup event_type).getD 10

/-- `_severity_label`. -/
def severity_label (score : Int) : String :=
  if score ≥ 80 then "critical"
  else if score ≥ 60 then "high"
  else if score ≥ 40 then "medium"
  else "low"

/-- `score_event`: returns `(score, label)` and the event with `severity`
written back (the source mutates the event in place). -/
def score_event (event : DriftEvent) : Int × String × DriftEvent :=
  let base := baseScoreOf event.event_type
  let boost := ((evaluate_rules event).map (fun r => r.severity_boost)).sum
  let score := min (base + boost) 100
  let label := severity_label score
  (score, label, { event with severity := label })

/-! ### Drift detector (`drift/detector.py`) -/

/-- Lexicographic order on `(source, destination)` keys, as Python's
`sorted` on string tuples. -/
def keyLE (a b : String × String) : Prop :=
  a.1 < b.1 ∨ (a.1 = b.1 ∧ a.2 ≤ b.2)

instance : DecidableRel keyLE := fun a b => by
  unfold keyLE; infer_instance

/-- Python `sorted(set_of_keys)`: distinct keys in ascending order. -/
def sortKeys (l : List (String × String)) : List (String × String) :=
  List.insertionSort keyLE l.dedup

/-- Python `sorted(set_of_strings)`. -/
def sortStrings (l : List String) : List String :=
  List.insertionSort (· ≤ ·) l.dedup

/-- All edge keys of a snapshot (with multiplicity, before set formation). -/
def edgeKeysOf (s : Snapshot) : List (String × String) := s.edges.map Edge.edge_key

/-- Dict comprehension `{e.edge_key(): e for e in edges}`: the last edge
with the given key wins. -/
def lastWithKey (edges : List Edge) (k : String × String) : Option Edge :=
  (edges.filter (fun e => e.edge_key = k)).getLast?

/-- `sorted(curr_keys - base_keys)`. -/
def newKeys (baseline current : Snapshot) : List (String × String) :=
  sortKeys ((edgeKeysOf current).filter (fun k => !(decide (k ∈ edgeKeysOf baseline))))

/-- `sorted(base_keys - curr_keys)`. -/
def removedKeys (baseline current : Snapshot) : List (String × String) :=
  sortKeys ((edgeKeysOf baseline).filter (fun k => !(decide (k ∈ edgeKeysOf current))))

/-- `sorted(base_keys & curr_keys)`. -/
def commonKeys (baseline current : Snapshot) : List (String × String) :=
  sortKeys ((edgeKeysOf baseline).filter (fun k => decide (k ∈ edgeKeysOf current)))

def newEdgeEvent (k : String × String) : DriftEvent :=
  { event_type := "new_edge", source := k.1, destination := k.2
    details := { description := some ("New edge " ++ k.1 ++ " -> " ++ k.2) } }

def removedEdgeEvent (k : String × String) : DriftEvent :=
  { event_type := "removed_edge", source := k.1, destination := k.2
    details := { description := some ("Removed edge " ++ k.1 ++ " -> " ++ k.2) } }

/-- Rules 3-5 of `detect_drift` for one common edge key (the Python locals
`old_er` / `new_er` / `factor` are inlined). -/
def spikeEvents (old new : Edge) (k : String × String) : List DriftEvent :=
  (if 0 < old.error_rate ∧ (0.05 : Rat) < new.error_rate ∧
      2 < new.error_rate / old.error_rate then
      [{ event_type := "error_spike", source := k.1, destination := k.2
         details := { baseline_value := some (pyRound old.error_rate 4)
                      current_value := some (pyRound new.error_rate 4)
                      change_factor := some (pyRound (new.error_rate / old.error_rate) 2) }}]
    else []) ++
  (if 0 < old.p99_latency_ms ∧ (100 : Rat) < new.p99_latency_ms then
      (if 2 < new.p99_latency_ms / old.p99_latency_ms then
        [{ event_type := "latency_spike", source := k.1, destination := k.2
           details := { baseline_value := some old.p99_latency_ms
                        current_value := some new.p99_latency_ms
                        change_factor := some (pyRound (new.p99_latency_ms / old.p99_latency_ms) 2) }}]
       else [])
    else []) ++
  (if 0 < old.request_count then
      (if 3 < (new.request_count : Rat) / (old.request_count : Rat) then
        [{ event_type := "traffic_spike", source := k.1, destination := k.2
           details := { baseline_value := some (old.request_count : Rat)
                        current_value := some (new.request_count : Rat)
                        change_factor := some (pyRound ((new.request_count : Rat) / (old.request_count : Rat)) 2) }}]
       else [])
    else [])

/-- The common-edge comparison of `detect_drift` for one key.  Both lookups
succeed for every key of the intersection; the fallback is unreachable. -/
def eventsForKey (baseline current : Snapshot) (k : String × String) : List DriftEvent :=
  match lastWithKey baseline.edges k, lastWithKey current.edges k with
  | some old, some new => spikeEvents old new k
  | _, _ => []

/-- `_outgoing_counts(snap).get(svc, 0)`. -/
def outCount (s : Snapshot) (svc : String) : Nat :=
  (s.edges.filter (fun e => e.source = svc)).length

/-- `sorted(set(base_out) | set(curr_out))`. -/
def blastSources (baseline current : Snapshot) : List String :=
  sortStrings (baseline.edges.map (fun e => e.source) ++ current.edges.map (fun e => e.source))

/-- Rule 6 of `detect_drift` for one service (the Python local `diff` is
inlined). -/
def blastEventsFor (baseline current : Snapshot) (svc : String) : List DriftEvent :=
  if 2 ≤ (outCount current svc : Int) - (outCount baseline svc : Int) then
    [{ event_type := "blast_radius_increase", source := svc, destination := "*"
       details := { baseline_value := some (outCount baseline svc : Rat)
                    current_value := some (outCount current svc : Rat)
                    change_factor :=
                      some (((outCount current svc : Int) - (outCount baseline svc : Int) : Int) : Rat) }}]
  else []

/-- `detect_drift(baseline, current)`. -/
def detect_drift (baseline current : Snapshot) : List DriftEvent :=
  (newKeys baseline current).map newEdgeEvent ++
  (removedKeys baseline current).map removedEdgeEvent ++
  ((commonKeys baseline current).map (eventsForKey baseline current)).flatten ++
  ((blastSources baseline current).map (blastEventsFor baseline current)).flatten

/-! ### Snapshot builder (`graph/builder.py`, `collector/ingress_parser.py`) -/

/-- First-occurrence deduplication: the key order of a Python dict built by
`setdefault` insertion.  Fuel-structured for kernel reduction; `l.length`
fuel always suffices. -/
def firstDedupFuel {α : Type} [DecidableEq α] : Nat → List α → List α
  | 0, l => l
  | _ + 1, [] => []
  | fuel + 1, a :: l => a :: firstDedupFuel fuel (l.filter (fun x => x ≠ a))

def firstDedup {α : Type} [DecidableEq α] (l : List α) : List α :=
  firstDedupFuel l.length l

/-- `p99(values)` of `graph/builder.py`.  The Python index expression
`int(0.99 * len(s) + 0.5) - 1` is modelled exactly on rationals as
`(99*N + 50) / 100 - 1` in natural division (truncation); the subtraction
and the `max(0, ...)` clamp coincide with Nat subtraction since
`(99*N + 50) / 100 ≥ 1` for `N ≥ 1`. -/
def p99 (values : List Rat) : Rat :=
  if values = [] then 0
  else
    let s := List.insertionSort (· ≤ ·) values
    let n := s.length
    let idx := min ((99 * n + 50) / 100 - 1) (n - 1)
    s.getD idx 0

/-- Modelled from the spec: `p99_latency_ms` is the sorted element at
`idx = clamp(ceil(0.99·N) − 1, 0, N−1)` (nearest-rank 99th percentile),
0 for the empty list.  `ceil(99·N/100) = (99·N + 99) / 100` in Nat
division.  Kept separate from `p99` (the source) for comparison. -/
def nearestRank_spec (values : List Rat) : Rat :=
  if values = [] then 0
  else
    let s := List.insertionSort (· ≤ ·) values
    let n := s.length
    let idx := min ((99 * n + 99) / 100 - 1) (n - 1)
    s.getD idx 0

/-- `_infer_node_type`. -/
def infer_node_type (name : String) : String :=
  if pyContains name "-db" then "database"
  else if pyContains name "gateway" then "gateway"
  else "service"

/-- One request record as consumed by `build_snapshot` (timestamps are
modelled as integers, order-isomorphic to `datetime`). -/
structure Record where
  timestamp : Int
  source : String
  destination : String
  status_code : Nat
  latency_ms : Rat
deriving DecidableEq, Repr

def recKey (r : Record) : String × String := (r.source, r.destination)

/-- Key order of the `groups` dict (first occurrence wins). -/
def groupKeys (records : List Record) : List (String × String) :=
  firstDedup (records.map recKey)

/-- `build_snapshot(records, start, end)` (`end` is a Lean keyword, the
parameter is called `stop`; the uuid4 `snapshot_id` default is modelled as
an empty string, it is irrelevant to every claim). -/
def build_snapshot (records : List Record) (start stop : Int) : Snapshot :=
  let keys := groupKeys records
  let node_names := sortStrings (keys.map Prod.fst ++ keys.map Prod.snd)
  let nodes := node_names.map (fun n => { name := n, node_type := infer_node_type n : Node })
  let edges := keys.map (fun k =>
    let recs := records.filter (fun r => recKey r = k)
    let latencies := recs.map (fun r => r.latency_ms)
    let avg : Rat := if latencies = [] then 0 else latencies.sum / (latencies.length : Rat)
    { source := k.1, destination := k.2
      request_count := recs.length
      error_count := (recs.filter (fun r => 500 ≤ r.status_code)).length
      avg_latency_ms := pyRound avg 2
      p99_latency_ms := pyRound (p99 latencies) 2 : Edge })
  { snapshot_id := "", timestamp_start := start, timestamp_end := stop
    edges := edges, nodes := nodes }

/-- `filter_by_time_window(records, start, end)`: keep records in
`[start, end)`. -/
def filter_by_time_window (records : List Record) (start stop : Int) : List Record :=
  records.filter (fun r => start ≤ r.timestamp ∧ r.timestamp < stop)

/-! ### Snapshot store (`graph/storage.py`)

The SQLite tables of `core/migrations.py` are modelled as row lists in
insertion (rowid) order; ISO-formatted timestamps sort like their datetimes,
so they are kept as `Int`.  `tenant_id = None` (super admin) is `none`;
`save_snapshot` / `delete_snapshot` raise on `None` in the source, so their
embeddings take a concrete tenant. -/

structure SnapRow where
  snapshot_id : String
  timestamp_start : Int
  timestamp_end : Int
  tenant_id : String
deriving DecidableEq, Repr

structure EdgeRow where
  snapshot_id : String
  source : String
  destination : String
  request_count : Nat
  error_count : Nat
  avg_latency_ms : Rat
  p99_latency_ms : Rat
  tenant_id : String
deriving DecidableEq, Repr

structure NodeRow where
  snapshot_id : String
  name : String
  nspace : String
  node_type : String
  tenant_id : String
deriving DecidableEq, Repr

structure Store where
  snapshots : List SnapRow := []
  edges : List EdgeRow := []
  nodes : List NodeRow := []
deriving DecidableEq, Repr

/-- `save_snapshot`: `INSERT OR REPLACE` on the `snapshots` primary key
`snapshot_id`, then `DELETE FROM edges/nodes WHERE snapshot_id = ?` and
re-insertion of the snapshot's edges and nodes. -/
def save_snapshot (snapshot : Snapshot) (tenant_id : String) (db : Store) : Store :=
  { snapshots := db.snapshots.filter (fun r => r.snapshot_id ≠ snapshot.snapshot_id) ++
      [⟨snapshot.snapshot_id, snapshot.timestamp_start, snapshot.timestamp_end, tenant_id⟩]
    edges := db.edges.filter (fun r => r.snapshot_id ≠ snapshot.snapshot_id) ++
      snapshot.edges.map (fun e =>
        ⟨snapshot.snapshot_id, e.source, e.destination, e.request_count, e.error_count,
         e.avg_latency_ms, e.p99_latency_ms, tenant_id⟩)
    nodes := db.nodes.filter (fun r => r.snapshot_id ≠ snapshot.snapshot_id) ++
      snapshot.nodes.map (fun n =>
        ⟨snapshot.snapshot_id, n.name, n.nspace, n.node_type, tenant_id⟩) }

/-- `load_snapshot`: the header row is tenant-filtered (unless super admin);
the edge and node queries filter on `snapshot_id` only, as in the source. -/
def load_snapshot (snapshot_id : String) (tenant_id : Option String) (db : Store) :
    Option Snapshot :=
  let row? : Option SnapRow := match tenant_id with
    | none => (db.snapshots.filter (fun (r : SnapRow) => r.snapshot_id = snapshot_id)).head?
    | some t =>
        (db.snapshots.filter
          (fun (r : SnapRow) => r.snapshot_id = snapshot_id ∧ r.tenant_id = t)).head?
  match row? with
  | none => none
  | some row => some
      { snapshot_id := row.snapshot_id
        timestamp_start := row.timestamp_start
        timestamp_end := row.timestamp_end
        edges := (db.edges.filter (fun (r : EdgeRow) => r.snapshot_id = snapshot_id)).map
          (fun (r : EdgeRow) =>
            ⟨r.source, r.destination, r.request_count, r.error_count,
             r.avg_latency_ms, r.p99_latency_ms⟩)
        nodes := (db.nodes.filter (fun (r : NodeRow) => r.snapshot_id = snapshot_id)).map
          (fun (r : NodeRow) => ⟨r.name, r.nspace, r.node_type⟩) }

/-- `ORDER BY timestamp_start` as a relation on snapshot rows. -/
def rowLE (a b : SnapRow) : Prop := a.timestamp_start ≤ b.timestamp_start

instance : DecidableRel rowLE := fun a b => by unfold rowLE; infer_instance

instance : IsTotal SnapRow rowLE := ⟨fun a b => Int.le_total _ _⟩

instance : IsTrans SnapRow rowLE := ⟨fun _ _ _ hab hbc => Int.le_trans hab hbc⟩

/-- `list_snapshots`: `ORDER BY timestamp_start` (ascending). -/
def list_snapshots (tenant_id : Option String) (db : Store) : List (String × Int × Int) :=
  let rows := match tenant_id with
    | none => db.snapshots
    | some t => db.snapshots.filter (fun r => r.tenant_id = t)
  (List.insertionSort rowLE rows).map
    (fun r => (r.snapshot_id, r.timestamp_start, r.timestamp_end))

/-- `delete_snapshot`: the edge and node `DELETE`s filter on `snapshot_id`
only (no tenant check); only the `snapshots` `DELETE` is tenant-scoped, and
its row count is the returned boolean. -/
def delete_snapshot (snapshot_id : String) (tenant_id : String) (db : Store) : Bool × Store :=
  let edges' := db.edges.filter (fun r => r.snapshot_id ≠ snapshot_id)
  let nodes' := db.nodes.filter (fun r => r.snapshot_id ≠ snapshot_id)
  let deleted := db.snapshots.filter
    (fun r => r.snapshot_id = snapshot_id ∧ r.tenant_id = tenant_id)
  let snapshots' := db.snapshots.filter
    (fun r => ¬(r.snapshot_id = snapshot_id ∧ r.tenant_id = tenant_id))
  (!deleted.isEmpty, { snapshots := snapshots', edges := edges', nodes := nodes' })

/-! ### Explainer (`drift/explainer.py`)

The card's free-text fields interpolate numbers; Python float formatting
(`:.2%`, `:.0f`, `repr`) is rendered through `Rat`'s canonical string — no
claim depends on those characters, only on the branching structure and on
`why_risk` / `affected`. -/

structure ExplainCard where
  event_type : String
  title : String
  what_changed : String
  why_risk : List String
  affected : List String
  recommendation : String
  risk_score : Int
  severity : String
deriving DecidableEq, Repr

def ratStr (x : Rat) : String := toString x

/-- `_title`. -/
def titleOf (ev : DriftEvent) : String :=
  if ev.event_type = "new_edge" then "Новая связь: " ++ ev.source ++ " -> " ++ ev.destination
  else if ev.event_type = "removed_edge" then
    "Исчезла связь: " ++ ev.source ++ " -> " ++ ev.destination
  else if ev.event_type = "error_spike" then
    "Всплеск ошибок: " ++ ev.source ++ " -> " ++ ev.destination
  else if ev.event_type = "latency_spike" then
    "Рост задержки: " ++ ev.source ++ " -> " ++ ev.destination
  else if ev.event_type = "traffic_spike" then
    "Всплеск трафика: " ++ ev.source ++ " -> " ++ ev.destination
  else if ev.event_type = "blast_radius_increase" then
    "Рост поверхности атаки: " ++ ev.source
  else "Drift: " ++ ev.source ++ " -> " ++ ev.destination

/-- `_what_changed`. -/
def whatChangedOf (ev : DriftEvent) : String :=
  let bv := (ev.details.baseline_value).getD 0
  let cv := (ev.details.current_value).getD 0
  let cf := (ev.details.change_factor).getD 0
  if ev.event_type = "new_edge" then
    "Появилась новая связь " ++ ev.source ++ " -> " ++ ev.destination ++
      ", которой не было в предыдущем периоде"
  else if ev.event_type = "removed_edge" then
    "Связь " ++ ev.source ++ " -> " ++ ev.destination ++ " исчезла из текущего периода"
  else if ev.event_type = "error_spike" then
    "Error rate вырос с " ++ ratStr bv ++ " до " ++ ratStr cv ++ " (рост в " ++ ratStr cf ++ "x)"
  else if ev.event_type = "latency_spike" then
    "p99 latency вырос с " ++ ratStr bv ++ "ms до " ++ ratStr cv ++ "ms (рост в " ++
      ratStr cf ++ "x)"
  else if ev.event_type = "traffic_spike" then
    "Трафик вырос с " ++ ratStr bv ++ " до " ++ ratStr cv ++ " запросов (рост в " ++
      ratStr cf ++ "x)"
  else if ev.event_type = "blast_radius_increase" then
    "Количество исходящих связей " ++ ev.source ++ " выросло с " ++ ratStr bv ++
      " до " ++ ratStr cv
  else reprStr ev.details

/-- `_recommendation`. -/
def recommendationOf (ev : DriftEvent) : String :=
  if ev.event_type = "new_edge" then
    if pyContains ev.destination "-db" then
      "Проверить необходимость прямого доступа. Рассмотреть NetworkPolicy для блокировки " ++
        ev.source ++ " -> " ++ ev.destination
    else
      "Проверить, является ли связь ожидаемой. Если нет — ограничить через NetworkPolicy"
  else if ev.event_type = "error_spike" then
    "Проверить логи " ++ ev.destination ++ ". Возможна деградация сервиса или некорректный деплой"
  else if ev.event_type = "latency_spike" then
    "Проверить нагрузку на " ++ ev.destination ++ ". Рассмотреть rate-limiting для " ++ ev.source
  else if ev.event_type = "removed_edge" then
    "Проверить, ожидаемо ли исчезновение. Возможен сбой или изменение маршрутизации"
  else if ev.event_type = "traffic_spike" then
    "Проверить источник роста трафика " ++ ev.source ++ " -> " ++ ev.destination ++
      ". Рассмотреть rate-limiting для " ++ ev.source
  else if ev.event_type = "blast_radius_increase" then
    "Аудит новых исходящих связей " ++ ev.source ++ ". Ограничить разрешённые направления"
  else "Требуется ручной анализ"

/-- `explain_event`. -/
def explain_event (event : DriftEvent) (score : Int) (severity : String) : ExplainCard :=
  let rules := evaluate_rules event
  let why := if rules ≠ [] then rules.map (fun r => r.reason)
             else ["Изменение зафиксировано, требует проверки"]
  let affected := [event.source] ++ (if event.destination ≠ "*" then [event.destination] else [])
  { event_type := event.event_type
    title := titleOf event
    what_changed := whatChangedOf event
    why_risk := why
    affected := affected
    recommendation := recommendationOf event
    risk_score := score
    severity := severity }

/-! ### ML baseline & anomaly (`ml/baseline.py`, `ml/anomaly.py`) -/

/-- `EdgeProfile` dataclass (`last_updated` as an integer timestamp). -/
structure EdgeProfile where
  edge_key : String × String
  request_count_mean : Rat
  request_count_std : Rat
  error_rate_mean : Rat
  error_rate_std : Rat
  p99_latency_mean : Rat
  p99_latency_std : Rat
  last_updated : Int := 0
  sample_count : Nat
deriving DecidableEq, Repr

structure ZScores where
  request_count_z : Rat
  error_rate_z : Rat
  p99_latency_z : Rat
deriving DecidableEq, Repr

def METRIC_WEIGHTS (k : String) : Rat :=
  if k = "error_rate" then 2
  else if k = "p99_latency" then 3/2
  else if k = "request_count" then 1
  else 0

/-- `calculate_z_scores`. -/
def calculate_z_scores (current_edge : Edge) (baseline : EdgeProfile) : ZScores :=
  { request_count_z :=
      if 0 < baseline.request_count_std then
        ((current_edge.request_count : Rat) - baseline.request_count_mean) /
          baseline.request_count_std
      else 0
    error_rate_z :=
      if 0 < baseline.error_rate_std then
        (current_edge.error_rate - baseline.error_rate_mean) / baseline.error_rate_std
      else 0
    p99_latency_z :=
      if 0 < baseline.p99_latency_std then
        (current_edge.p99_latency_ms - baseline.p99_latency_mean) / baseline.p99_latency_std
      else 0 }

/-- `calculate_anomaly_score`. -/
def calculate_anomaly_score (z : ZScores) : Rat :=
  max 0 z.error_rate_z * METRIC_WEIGHTS "error_rate" +
    max 0 z.p99_latency_z * METRIC_WEIGHTS "p99_latency" +
    |z.request_count_z| * METRIC_WEIGHTS "request_count"

/-- `is_anomaly`. -/
def is_anomaly (current_edge : Edge) (baseline : Option EdgeProfile)
    (threshold_anomaly : Rat := 3) (threshold_suspicious : Rat := 2) :
    Bool × String × Option Rat :=
  match baseline with
  | none => (false, "no_baseline", none)
  | some b =>
      if b.sample_count < 3 then (false, "insufficient_data", none)
      else
        let z := calculate_z_scores current_edge b
        let anomaly_score := calculate_anomaly_score z
        if threshold_anomaly ≤ anomaly_score then (true, "anomaly", some anomaly_score)
        else if threshold_suspicious ≤ anomaly_score then (true, "suspicious", some anomaly_score)
        else (false, "normal", some anomaly_score)

/-- `get_anomaly_modifier` (the numeric score argument is unused, as in the
source). -/
def get_anomaly_modifier (anomaly_score : Option Rat) (label : String) : Int :=
  if label = "no_baseline" ∨ label = "insufficient_data" then 0
  else if label = "anomaly" then 20
  else if label = "suspicious" then 10
  else -20

/-! ### Pattern recognition (`ml/patterns.py`) -/

structure PatternResult where
  pattern_type : String
  confidence : Rat
  score_modifier : Int
  explanation : String
deriving DecidableEq, Repr

/-- `detect_deployment_pattern`. -/
def detect_deployment_pattern (events : List DriftEvent) (current_event : DriftEvent) :
    Option PatternResult :=
  let new_edge_count := (events.filter (fun e => e.event_type = "new_edge")).length
  if 3 ≤ new_edge_count ∧ current_event.event_type = "new_edge" then
    some { pattern_type := "deployment"
           confidence := min ((new_edge_count : Rat) / 10) 1
           score_modifier := -30
           explanation := "Deployment detected: " ++ toString new_edge_count ++
             " new edges simultaneously" }
  else none

/-- `detect_canary_pattern`. -/
def detect_canary_pattern (current_event : DriftEvent) : Option PatternResult :=
  if current_event.event_type ≠ "new_edge" then none
  else
    match current_event.details.request_count with
    | none => none
    | some rc =>
        if 0 < rc ∧ rc < 10 then
          some { pattern_type := "canary"
                 confidence := 0.8
                 score_modifier := -20
                 explanation := "Canary release detected: only " ++ ratStr rc ++ " requests" }
        else none

/-- `detect_error_cascade`. -/
def detect_error_cascade (events : List DriftEvent) (current_event : DriftEvent) :
    Option PatternResult :=
  if current_event.event_type ≠ "error_spike" then none
  else
    let error_spike_count := (events.filter (fun e => e.event_type = "error_spike")).length
    if 2 ≤ error_spike_count then
      let services_with_errors :=
        (((events.filter (fun e => e.event_type = "error_spike")).map
          (fun e => [e.source, e.destination])).flatten).dedup
      some { pattern_type := "error_cascade"
             confidence := min ((error_spike_count : Rat) / 5) 1
             score_modifier := 10
             explanation := "Error cascade: " ++ toString error_spike_count ++
               " errors across " ++ toString services_with_errors.length ++ " services" }
    else none

/-- `detect_rollback_pattern`. -/
def detect_rollback_pattern (events : List DriftEvent) (current_event : DriftEvent) :
    Option PatternResult :=
  let removed_edge_count := (events.filter (fun e => e.event_type = "removed_edge")).length
  if 2 ≤ removed_edge_count ∧ current_event.event_type = "removed_edge" then
    some { pattern_type := "rollback"
           confidence := min ((removed_edge_count : Rat) / 5) 1
           score_modifier := -40
           explanation := "Rollback detected: " ++ toString removed_edge_count ++
             " edges removed" }
  else none

/-- The scan of `recognize_pattern`: first candidate with confidence ≥ 0.3. -/
def firstGoodPattern : List (Option PatternResult) → PatternResult
  | [] => { pattern_type := "unknown", confidence := 0, score_modifier := 0
            explanation := "No known pattern detected" }
  | none :: rest => firstGoodPattern rest
  | some p :: rest => if (0.3 : Rat) ≤ p.confidence then p else firstGoodPattern rest

/-- `recognize_pattern`. -/
def recognize_pattern (events : List DriftEvent) (current_event : DriftEvent) : PatternResult :=
  firstGoodPattern
    [detect_rollback_pattern events current_event,
     detect_deployment_pattern events current_event,
     detect_error_cascade events current_event,
     detect_canary_pattern current_event]

/-! ### Smart scorer (`ml/smart_scorer.py`) -/

/-- The numeric content of the `breakdown` dict (the formatted reason
strings are presentation only). -/
structure Breakdown where
  base_score : Int
  anomaly_value : Option Int := none
  pattern_value : Option Int := none
  history_value : Option Int := none
  final_score : Int := 0
  severity : String := ""
deriving DecidableEq, Repr

/-- `calculate_smart_score`.  Note: the rule engine is *not* consulted — the
modifiers are anomaly, pattern and history only. -/
def calculate_smart_score (event : DriftEvent) (all_events : List DriftEvent)
    (baseline : Option EdgeProfile := none) (current_edge : Option Edge := none)
    (pattern_result : Option PatternResult := none) (history_safe : Bool := false) :
    Int × String × Breakdown :=
  let base_score := baseScoreOf event.event_type
  let anomaly_modifier : Int :=
    match baseline, current_edge with
    | some b, some ce =>
        let r := is_anomaly ce (some b)
        get_anomaly_modifier r.2.2 r.2.1
    | _, _ => 0
  let pattern_result :=
    if pattern_result = none ∧ all_events ≠ [] then
      some (recognize_pattern all_events event)
    else pattern_result
  let pattern_modifier : Int :=
    match pattern_result with
    | some pr => if pr.pattern_type ≠ "unknown" then pr.score_modifier else 0
    | none => 0
  let history_modifier : Int := if history_safe then -40 else 0
  let final_score := max 0 (min 100 (base_score + anomaly_modifier + pattern_modifier +
    history_modifier))
  let severity := severity_label final_score
  (final_score, severity,
   { base_score := base_score
     anomaly_value := match baseline, current_edge with
       | some _, some _ => some anomaly_modifier
       | _, _ => none
     pattern_value := match pattern_result with
       | some pr => if pr.pattern_type ≠ "unknown" then some pr.score_modifier else none
       | none => none
     history_value := if history_safe then some (-40) else none
     final_score := final_score
     severity := severity })

end SGD

namespace SGD

/-! ## Claim theorems -/

/-- C4: the code's `p99` disagrees with the nearest-rank formula
`idx = clamp(ceil(0.99·N) − 1, 0, N−1)` stated in the spec and in the
code's own comment.  On the 51 latencies `1.0, 2.0, …, 51.0` the code
returns the element at index 49 (`int(0.99·51 + 0.5) − 1 = 49`, value
`50.0`) while the ceil formula selects index 50 (value `51.0`). -/
theorem C4_p99_round_half_up_contradicts_ceil_comment :
    p99 ((List.range 51).map (fun i => ((i + 1 : Nat) : Rat))) = 50 ∧
    nearestRank_spec ((List.range 51).map (fun i => ((i + 1 : Nat) : Rat))) = 51 := by
  constructor <;> with_unfolding_all decide

/-- Tenant_a's snapshot for the C2 scenario: one edge and one node. -/
def c2Snap : Snapshot :=
  { snapshot_id := "snap-a1"
    timestamp_start := 10
    timestamp_end := 11
    edges := [{ source := "a", destination := "b", request_count := 5 }]
    nodes := [{ name := "a" }] }

/-- The store after tenant_a saves `c2Snap` into an empty database. -/
def c2Store : Store := save_snapshot c2Snap "tenant_a" {}

/-- C2: tenant isolation is broken by `delete_snapshot`.  After tenant_a
saves a snapshot with one edge and one node, `delete_snapshot` called by
tenant_b returns `False` (the `snapshots` delete is tenant-scoped) yet
erases tenant_a's edge and node rows, because the `DELETE FROM edges` /
`DELETE FROM nodes` statements filter on `snapshot_id` only.  A later
`load_snapshot` by tenant_a sees the gutted snapshot.  The read part of
the claim does hold: tenant_b's `load_snapshot` returns not-found. -/
theorem C2_delete_snapshot_cross_tenant_mutation :
    (delete_snapshot "snap-a1" "tenant_b" c2Store).1 = false ∧
    c2Store.edges ≠ [] ∧ c2Store.nodes ≠ [] ∧
    (delete_snapshot "snap-a1" "tenant_b" c2Store).2.edges = [] ∧
    (delete_snapshot "snap-a1" "tenant_b" c2Store).2.nodes = [] ∧
    load_snapshot "snap-a1" (some "tenant_a") ((delete_snapshot "snap-a1" "tenant_b" c2Store).2) =
      some { snapshot_id := "snap-a1", timestamp_start := 10, timestamp_end := 11 } ∧
    load_snapshot "snap-a1" (some "tenant_b") c2Store = none := by
  refine ⟨?_, ?_, ?_, ?_, ?_, ?_, ?_⟩ <;> with_unfolding_all decide

end SGD

namespace SGD

/-- Store with two snapshots of tenant "t" for the C8 scenario: "s1" starts
at 10, "s2" at 20. -/
def c8Store : Store :=
  save_snapshot { snapshot_id := "s2", timestamp_start := 20, timestamp_end := 21 } "t"
    (save_snapshot { snapshot_id := "s1", timestamp_start := 10, timestamp_end := 11 } "t" {})

/-- C8: `list_snapshots` is *not* most-recent-first.  With snapshots "s1"
(timestamp_start 10) and "s2" (timestamp_start 20) stored for tenant "t",
the listing puts "s1" first although "s2" has the larger
`timestamp_start` — the SQL is `ORDER BY timestamp_start` ascending. -/
theorem C8_list_snapshots_oldest_first :
    list_snapshots (some "t") c8Store = [("s1", 10, 11), ("s2", 20, 21)] ∧ (10 : Int) < 20 := by
  constructor <;> with_unfolding_all decide

/-- C8 (amended): `list_snapshots` returns exactly the tenant's snapshot
rows, sorted *ascending* (oldest-first) by `timestamp_start`. -/
theorem C8_amended_list_snapshots_ascending (db : Store) (t : String) :
    List.Sorted (fun a b => a.2.1 ≤ b.2.1) (list_snapshots (some t) db) ∧
    (list_snapshots (some t) db).Perm
      ((db.snapshots.filter (fun r => r.tenant_id = t)).map
        (fun r => (r.snapshot_id, r.timestamp_start, r.timestamp_end))) := by
  constructor
  · have hs : List.Sorted rowLE
        (List.insertionSort rowLE (db.snapshots.filter (fun r => r.tenant_id = t))) :=
      List.sorted_insertionSort rowLE _
    exact List.Pairwise.map _ (fun a b h => h) hs
  · exact (List.perm_insertionSort rowLE _).map _

/-- Self-loop event for the C9 scenario. -/
def c9Event : DriftEvent := { event_type := "new_edge", source := "a-svc", destination := "a-svc" }

/-- C9: `affected` is *not* deduplicated.  For a self-loop event
(`source = destination = "a-svc"`) the card lists the service twice, while
the claim says it is listed exactly once. -/
theorem C9_affected_not_deduplicated :
    (explain_event c9Event 50 "medium").affected = ["a-svc", "a-svc"] ∧
    (explain_event c9Event 50 "medium").affected.count "a-svc" = 2 := by
  constructor <;> with_unfolding_all decide

/-- C9 (amended): `why_risk` is the order-preserving list of reasons of the
triggered rules with the manual-review fallback, and `affected` is
`[source] ++ ([destination] if destination ≠ "*")` *without*
deduplication (a self-loop is listed twice); score, severity and
event type are copied through. -/
theorem C9_amended_explain_event (ev : DriftEvent) (score : Int) (severity : String) :
    (explain_event ev score severity).why_risk =
      (if evaluate_rules ev ≠ [] then (evaluate_rules ev).map (fun r => r.reason)
       else ["Изменение зафиксировано, требует проверки"]) ∧
    (explain_event ev score severity).affected =
      [ev.source] ++ (if ev.destination ≠ "*" then [ev.destination] else []) ∧
    (explain_event ev score severity).risk_score = score ∧
    (explain_event ev score severity).severity = severity ∧
    (explain_event ev score severity).event_type = ev.event_type :=
  ⟨rfl, rfl, rfl, rfl, rfl⟩

/-- A record whose timestamp 5 lies outside the window [10, 20). -/
def c3Record : Record :=
  { timestamp := 5, source := "a", destination := "b", status_code := 200, latency_ms := 10 }

/-- C3: `build_snapshot` does *not* reject out-of-window records.  A single
record with timestamp 5 and window [10, 20) still produces an edge with
`request_count = 1` and the nodes "a", "b". -/
theorem C3_build_snapshot_no_window_filter :
    (5 : Int) < 10 ∧
    (build_snapshot [c3Record] 10 20).edges =
      [{ source := "a", destination := "b", request_count := 1, error_count := 0,
         avg_latency_ms := 10, p99_latency_ms := 10 }] ∧
    (build_snapshot [c3Record] 10 20).nodes.map Node.name = ["a", "b"] := by
  refine ⟨?_, ?_, ?_⟩ <;> with_unfolding_all decide

/-- C3 (amended): window filtering is done by the caller via
`filter_by_time_window` (`collector/ingress_parser.py`), not inside
`build_snapshot`; through that pipeline an out-of-window record
contributes nothing to the snapshot. -/
theorem C3_amended_filter_then_build (records : List Record) (start stop : Int) (rec : Record)
    (h : rec.timestamp < start ∨ stop ≤ rec.timestamp) :
    build_snapshot (filter_by_time_window (records ++ [rec]) start stop) start stop =
      build_snapshot (filter_by_time_window records start stop) start stop := by
  unfold filter_by_time_window
  rw [List.filter_append]
  have h2 : List.filter (fun r => decide (start ≤ r.timestamp ∧ r.timestamp < stop)) [rec] = [] := by
    simp only [List.filter_cons, List.filter_nil, decide_eq_true_eq]
    rw [if_neg]
    omega
  rw [h2, List.append_nil]

theorem C3_amended_filter_then_build_w :
    build_snapshot
        (filter_by_time_window ([⟨15, "c", "d", 200, 7⟩] ++ [⟨5, "a", "b", 200, 10⟩]) 10 20) 10 20 =
      build_snapshot (filter_by_time_window [⟨15, "c", "d", 200, 7⟩] 10 20) 10 20 :=
  C3_amended_filter_then_build [⟨15, "c", "d", 200, 7⟩] 10 20 ⟨5, "a", "b", 200, 10⟩
    (Or.inl (by decide))

end SGD

namespace SGD

/-- Modelled from the spec: `strip_suffix(s, suf)` removes one trailing
occurrence of `suf` from `s` when present (otherwise returns `s`).  Kept
separate from the source's `pyRemoveAll` (Python `str.replace`, which
removes *every* occurrence anywhere) for comparison. -/
def stripSuffix (s suf : String) : String :=
  if suf.data.length ≤ s.data.length ∧
      List.drop (s.data.length - suf.data.length) s.data = suf.data then
    String.mk (List.take (s.data.length - suf.data.length) s.data)
  else s

/-- A new_edge event whose suffix-stripped names coincide
(`strip_suffix("x-svc-svc","-svc") = "x-svc" = strip_suffix("x-svc-db","-db")`). -/
def c7Event : DriftEvent :=
  { event_type := "new_edge", source := "x-svc-svc", destination := "x-svc-db" }

/-- C7: the rule uses Python `str.replace` (all occurrences), not suffix
stripping.  On `x-svc-svc → x-svc-db` the suffix-stripped names coincide,
so by the claim the rule must not trigger; the code compares
`"x-svc-svc".replace("-svc","") = "x"` with
`"x-svc-db".replace("-db","") = "x-svc"` and does trigger with boost 20. -/
theorem C7_bypass_gateway_replace_not_suffix :
    stripSuffix "x-svc-svc" "-svc" = stripSuffix "x-svc-db" "-db" ∧
    "x-svc-svc" ∉ GATEWAY_SERVICES ∧
    pyRemoveAll "x-svc-svc" "-svc" = "x" ∧
    pyRemoveAll "x-svc-db" "-db" = "x-svc" ∧
    (rule_bypass_gateway c7Event).triggered = true ∧
    (rule_bypass_gateway c7Event).severity_boost = 20 := by
  refine ⟨?_, ?_, ?_, ?_, ?_, ?_⟩ <;> with_unfolding_all decide

/-- C7 (amended): `bypass_gateway` triggers, with boost +20, exactly for
new_edge events whose source is not a gateway and whose source with every
occurrence of `"-svc"` removed (Python `str.replace`) differs from the
destination with every occurrence of `"-db"` removed; otherwise it does
not trigger and the boost is 0. -/
theorem C7_amended_bypass_gateway_replace (ev : DriftEvent) :
    ((rule_bypass_gateway ev).triggered = true ↔
      (ev.event_type = "new_edge" ∧ ev.source ∉ GATEWAY_SERVICES ∧
        pyRemoveAll ev.source "-svc" ≠ pyRemoveAll ev.destination "-db")) ∧
    (rule_bypass_gateway ev).severity_boost =
      (if (rule_bypass_gateway ev).triggered then 20 else 0) := by
  unfold rule_bypass_gateway
  split_ifs with h1 h2 <;> simp_all

end SGD

namespace SGD

/-- The anomaly contribution of `calculate_smart_score` (step 2 of the
source), as a standalone function. -/
def smartAnomalyMod (baseline : Option EdgeProfile) (current_edge : Option Edge) : Int :=
  match baseline, current_edge with
  | some b, some ce =>
      let r := is_anomaly ce (some b)
      get_anomaly_modifier r.2.2 r.2.1
  | _, _ => 0

/-- The pattern contribution of `calculate_smart_score` (step 3 of the
source), as a standalone function. -/
def smartPatternMod (ev : DriftEvent) (all_events : List DriftEvent)
    (pattern_result : Option PatternResult) : Int :=
  let pr :=
    if pattern_result = none ∧ all_events ≠ [] then some (recognize_pattern all_events ev)
    else pattern_result
  match pr with
  | some p => if p.pattern_type ≠ "unknown" then p.score_modifier else 0
  | none => 0

/-- A new_edge event onto a sensitive database, whose triggered rules
(sensitive_target +30, bypass_gateway +20, database_direct_access +30)
boost by 80. -/
def c1Event : DriftEvent :=
  { event_type := "new_edge", source := "order-svc", destination := "payments-db" }

/-- C1: the smart scorer ignores the rule engine.  For a whitelisted
(history-safe) new_edge event onto `payments-db`, the claim's formula
`clamp(base + rule_boost + anomaly + pattern + history, 0, 100)` — and its
instance `max(0, base + rule_boosts − 40)` — gives 80 (base 40, boosts 80,
history −40), but `calculate_smart_score` returns 0: no rule boost enters
the smart score. -/
theorem C1_smart_score_ignores_rule_boost :
    ((evaluate_rules c1Event).map (fun r => r.severity_boost)).sum = 80 ∧
    max 0 (min 100 (baseScoreOf "new_edge" +
      ((evaluate_rules c1Event).map (fun r => r.severity_boost)).sum + 0 + 0 + (-40))) = 80 ∧
    (calculate_smart_score c1Event [c1Event] none none none true).1 = 0 := by
  refine ⟨?_, ?_, ?_⟩ <;> with_unfolding_all decide

/-- C1 (amended): the smart scorer's final score is
`clamp(base[event_type] + anomaly_mod + pattern_mod + history_mod, 0, 100)`
with *no* rule boost term; in particular a new_edge event on a
whitelisted (history-safe) edge, alone in its batch and with no ML inputs
and no request-count detail, scores `max(0, base − 40)`. -/
theorem C1_amended_smart_score_formula :
    (∀ (ev : DriftEvent) (all_events : List DriftEvent) (baseline : Option EdgeProfile)
        (current_edge : Option Edge) (pr : Option PatternResult) (hs : Bool),
      (calculate_smart_score ev all_events baseline current_edge pr hs).1 =
        max 0 (min 100 (baseScoreOf ev.event_type + smartAnomalyMod baseline current_edge +
          smartPatternMod ev all_events pr + (if hs then -40 else 0)))) ∧
    (∀ ev : DriftEvent, ev.event_type = "new_edge" → ev.details.request_count = none →
      (calculate_smart_score ev [ev] none none none true).1 =
        max 0 (baseScoreOf "new_edge" - 40)) := by
  constructor
  · intro ev all_events baseline current_edge pr hs
    rfl
  · intro ev h1 h2
    simp [calculate_smart_score, recognize_pattern, detect_rollback_pattern,
      detect_deployment_pattern, detect_error_cascade, detect_canary_pattern,
      firstGoodPattern, h1, h2, baseScoreOf, BASE_SCORES, List.lookup]

theorem C1_amended_smart_score_formula_w :
    (calculate_smart_score
        { event_type := "new_edge", source := "a", destination := "b" }
        [{ event_type := "new_edge", source := "a", destination := "b" }]
        none none none true).1 = max 0 (baseScoreOf "new_edge" - 40) :=
  C1_amended_smart_score_formula.2
    { event_type := "new_edge", source := "a", destination := "b" } rfl rfl

end SGD

namespace SGD

/-- Every base score in the table (and the default 10) is at least 10. -/
theorem baseScoreOf_ge_ten (t : String) : 10 ≤ baseScoreOf t := by
  unfold baseScoreOf BASE_SCORES
  simp only [List.lookup]
  split <;> simp_all <;> split <;> simp_all <;> split <;> simp_all <;> split <;> simp_all <;>
    split <;> simp_all <;> split <;> simp_all

/-- Every rule contributes a nonnegative severity boost. -/
theorem evaluate_rules_boost_nonneg (ev : DriftEvent) :
    ∀ r ∈ evaluate_rules ev, 0 ≤ r.severity_boost := by
  intro r hr
  unfold evaluate_rules ALL_RULES at hr
  have hmem := (List.mem_filter.mp hr).1
  simp only [List.map_cons, List.map_nil, List.mem_cons, List.not_mem_nil, or_false] at hmem
  rcases hmem with h | h | h | h | h <;> subst h
  · show (0 : Int) ≤ if ev.destination ∈ SENSITIVE_SERVICES then 30 else 0
    split_ifs <;> norm_num
  · unfold rule_bypass_gateway; split_ifs <;> simp <;> split_ifs <;> norm_num
  · unfold rule_database_direct_access; split_ifs <;> simp <;> split_ifs <;> norm_num
  · unfold rule_high_error_rate; split_ifs <;> simp <;> split_ifs <;> norm_num
  · show (0 : Int) ≤ if ev.event_type = "blast_radius_increase" then 15 else 0
    split_ifs <;> norm_num

/-- Band characterization of `_severity_label`. -/
theorem severity_label_bands (s : Int) :
    (severity_label s = "critical" ↔ 80 ≤ s) ∧
    (severity_label s = "high" ↔ 60 ≤ s ∧ s < 80) ∧
    (severity_label s = "medium" ↔ 40 ≤ s ∧ s < 60) ∧
    (severity_label s = "low" ↔ s < 40) := by
  unfold severity_label
  split_ifs with h1 h2 h3 <;> refine ⟨?_, ?_, ?_, ?_⟩ <;> simp <;> omega

/-- C6: `score_event` returns `clamp(base[event_type] + Σ boosts, 0, 100)`
(the source computes `min(base + boost, 100)`, and the lower clamp is
immaterial because base ≥ 10 and boosts are nonnegative); the severity
label is the band function of the score and is written back onto the
event; the base table is 40/20/35/25/30/35 with default 10. -/
theorem C6_score_event_clamp_bands_writeback (ev : DriftEvent) :
    (score_event ev).1 =
      max 0 (min (baseScoreOf ev.event_type +
        ((evaluate_rules ev).map (fun r => r.severity_boost)).sum) 100) ∧
    ((score_event ev).2.1 = "critical" ↔ 80 ≤ (score_event ev).1) ∧
    ((score_event ev).2.1 = "high" ↔ 60 ≤ (score_event ev).1 ∧ (score_event ev).1 < 80) ∧
    ((score_event ev).2.1 = "medium" ↔ 40 ≤ (score_event ev).1 ∧ (score_event ev).1 < 60) ∧
    ((score_event ev).2.1 = "low" ↔ (score_event ev).1 < 40) ∧
    (score_event ev).2.2 = { ev with severity := (score_event ev).2.1 } ∧
    baseScoreOf "new_edge" = 40 ∧ baseScoreOf "removed_edge" = 20 ∧
    baseScoreOf "error_spike" = 35 ∧ baseScoreOf "latency_spike" = 25 ∧
    baseScoreOf "traffic_spike" = 30 ∧ baseScoreOf "blast_radius_increase" = 35 ∧
    (∀ t : String, t ∉ ["new_edge", "removed_edge", "error_spike", "latency_spike",
        "traffic_spike", "blast_radius_increase"] → baseScoreOf t = 10) := by
  have hbase : 10 ≤ baseScoreOf ev.event_type := baseScoreOf_ge_ten _
  have hboost : 0 ≤ ((evaluate_rules ev).map (fun r => r.severity_boost)).sum := by
    apply List.sum_nonneg
    intro x hx
    rcases List.mem_map.mp hx with ⟨r, hr, hrx⟩
    exact hrx ▸ evaluate_rules_boost_nonneg ev r hr
  refine ⟨?_, (severity_label_bands _).1, (severity_label_bands _).2.1,
    (severity_label_bands _).2.2.1, (severity_label_bands _).2.2.2, rfl,
    by decide, by decide, by decide, by decide, by decide, by decide, ?_⟩
  · show min (baseScoreOf ev.event_type +
        ((evaluate_rules ev).map (fun r => r.severity_boost)).sum) 100 = _
    omega
  · intro t ht
    simp only [List.mem_cons, List.not_mem_nil, or_false, not_or] at ht
    obtain ⟨h1, h2, h3, h4, h5, h6⟩ := ht
    unfold baseScoreOf BASE_SCORES
    simp [List.lookup, beq_eq_false_iff_ne.mpr h1, beq_eq_false_iff_ne.mpr h2,
      beq_eq_false_iff_ne.mpr h3, beq_eq_false_iff_ne.mpr h4,
      beq_eq_false_iff_ne.mpr h5, beq_eq_false_iff_ne.mpr h6]

end SGD

namespace SGD

/-- Filtering a list by non-membership in itself gives the empty list
(Python's `self_keys - self_keys = ∅`). -/
theorem filter_not_mem_self (l : List (String × String)) :
    l.filter (fun k => !(decide (k ∈ l))) = [] := by
  apply List.filter_eq_nil_iff.mpr
  intro x hx
  simp [hx]

theorem newKeys_self (s : Snapshot) : newKeys s s = [] := by
  unfold newKeys
  rw [filter_not_mem_self]
  rfl

theorem removedKeys_self (s : Snapshot) : removedKeys s s = [] := by
  unfold removedKeys
  rw [filter_not_mem_self]
  rfl

/-- A rational divided by itself (1, or 0 for 0/0) is never above 2. -/
theorem two_lt_self_div_self_false (x : Rat) : ¬ (2 < x / x) := by
  rcases eq_or_ne x 0 with h | h
  · simp [h]
  · rw [div_self h]; norm_num

/-- A rational divided by itself is never above 3. -/
theorem three_lt_self_div_self_false (x : Rat) : ¬ (3 < x / x) := by
  rcases eq_or_ne x 0 with h | h
  · simp [h]
  · rw [div_self h]; norm_num

theorem spikeEvents_self (e : Edge) (k : String × String) : spikeEvents e e k = [] := by
  unfold spikeEvents
  have hA : ¬ (0 < e.error_rate ∧ (0.05 : Rat) < e.error_rate ∧
      2 < e.error_rate / e.error_rate) := by
    rintro ⟨-, -, u3⟩
    exact two_lt_self_div_self_false _ u3
  rw [if_neg hA]
  simp only [if_neg (two_lt_self_div_self_false e.p99_latency_ms),
    if_neg (three_lt_self_div_self_false (e.request_count : Rat)), ite_self,
    List.append_nil, List.nil_append]

theorem eventsForKey_self (s : Snapshot) (k : String × String) :
    eventsForKey s s k = [] := by
  unfold eventsForKey
  cases h : lastWithKey s.edges k with
  | none => rfl
  | some e => exact spikeEvents_self e k

/-- A flatten of a map is empty when every image is empty. -/
theorem flatten_map_eq_nil {α β : Type} (l : List α) (f : α → List β)
    (h : ∀ a ∈ l, f a = []) : (l.map f).flatten = [] := by
  induction l with
  | nil => rfl
  | cons a t ih =>
      simp only [List.map_cons, List.flatten_cons, h a (List.mem_cons_self a t),
        List.nil_append]
      exact ih (fun x hx => h x (List.mem_cons_of_mem _ hx))

theorem blastEventsFor_self (s : Snapshot) (svc : String) :
    blastEventsFor s s svc = [] := by
  unfold blastEventsFor
  rw [if_neg]
  omega

/-- C5: diffing a snapshot against itself yields no drift events: both set
differences are empty, every common edge compares equal to itself (ratios
are 1, below every spike threshold), and every blast-radius difference is
0. -/
theorem C5_detect_drift_self_empty (s : Snapshot) : detect_drift s s = [] := by
  unfold detect_drift
  rw [newKeys_self, removedKeys_self,
    flatten_map_eq_nil _ _ (fun k _ => eventsForKey_self s k),
    flatten_map_eq_nil _ _ (fun svc _ => blastEventsFor_self s svc)]
  rfl

end SGD

namespace SGD

/-- The identity of a drift event for claim-level duplicate analysis:
`(event_type, source, destination)`. -/
def evKey (e : DriftEvent) : String × String × String :=
  (e.event_type, e.source, e.destination)

theorem sortKeys_nodup (l : List (String × String)) : (sortKeys l).Nodup := by
  unfold sortKeys
  exact (List.perm_insertionSort keyLE l.dedup).nodup_iff.mpr (List.nodup_dedup l)

theorem sortStrings_nodup (l : List String) : (sortStrings l).Nodup := by
  unfold sortStrings
  exact (List.perm_insertionSort _ l.dedup).nodup_iff.mpr (List.nodup_dedup l)

theorem spikeEvents_mem {o n : Edge} {k : String × String} {e : DriftEvent}
    (h : e ∈ spikeEvents o n k) :
    (e.source, e.destination) = k ∧
      (e.event_type = "error_spike" ∨ e.event_type = "latency_spike" ∨
        e.event_type = "traffic_spike") := by
  unfold spikeEvents at h
  simp only [List.mem_append] at h
  rcases h with (h | h) | h <;> split at h <;>
    simp_all <;> subst h <;> simp

theorem spikeEvents_keys_nodup (o n : Edge) (k : String × String) :
    ((spikeEvents o n k).map evKey).Nodup := by
  unfold spikeEvents
  split_ifs <;> simp [evKey]

theorem eventsForKey_mem {b c : Snapshot} {k : String × String} {e : DriftEvent}
    (h : e ∈ eventsForKey b c k) :
    (e.source, e.destination) = k ∧
      (e.event_type = "error_spike" ∨ e.event_type = "latency_spike" ∨
        e.event_type = "traffic_spike") := by
  unfold eventsForKey at h
  cases hb : lastWithKey b.edges k <;> cases hc : lastWithKey c.edges k <;>
    rw [hb, hc] at h
  · exact absurd h (List.not_mem_nil e)
  · exact absurd h (List.not_mem_nil e)
  · exact absurd h (List.not_mem_nil e)
  · exact spikeEvents_mem h

theorem eventsForKey_keys_nodup (b c : Snapshot) (k : String × String) :
    ((eventsForKey b c k).map evKey).Nodup := by
  unfold eventsForKey
  cases hb : lastWithKey b.edges k <;> cases hc : lastWithKey c.edges k <;>
    first
      | exact List.nodup_nil
      | exact spikeEvents_keys_nodup _ _ k

theorem blastEventsFor_mem {b c : Snapshot} {svc : String} {e : DriftEvent}
    (h : e ∈ blastEventsFor b c svc) :
    e.event_type = "blast_radius_increase" ∧ e.source = svc ∧ e.destination = "*" := by
  unfold blastEventsFor at h
  split at h <;> simp_all <;> subst h <;> simp

theorem blastEventsFor_keys_nodup (b c : Snapshot) (svc : String) :
    ((blastEventsFor b c svc).map evKey).Nodup := by
  unfold blastEventsFor
  split <;> simp

end SGD

namespace SGD

/-- C10: the drift event list of `detect_drift` never contains two events
with the same `(event_type, source, destination)`.  Each of the four
sections draws its keys from a sorted deduplicated list, within one common
edge key at most one event of each spike type is emitted, and the four
sections use pairwise distinct event types. -/
theorem C10_detect_drift_event_keys_nodup (b c : Snapshot) :
    ((detect_drift b c).map evKey).Nodup := by
  unfold detect_drift
  simp only [List.map_append, List.map_flatten, List.map_map, Function.comp_def]
  rw [List.append_assoc, List.append_assoc]
  have hAkeys : (newKeys b c).Nodup := by unfold newKeys; exact sortKeys_nodup _
  have hBkeys : (removedKeys b c).Nodup := by unfold removedKeys; exact sortKeys_nodup _
  have hCkeys : (commonKeys b c).Nodup := by unfold commonKeys; exact sortKeys_nodup _
  have hDkeys : (blastSources b c).Nodup := by unfold blastSources; exact sortStrings_nodup _
  have hA : ((newKeys b c).map (fun k => evKey (newEdgeEvent k))).Nodup := by
    refine hAkeys.map ?_
    intro x y h
    simp only [evKey, newEdgeEvent, Prod.mk.injEq, true_and] at h
    exact Prod.ext h.1 h.2
  have hB : ((removedKeys b c).map (fun k => evKey (removedEdgeEvent k))).Nodup := by
    refine hBkeys.map ?_
    intro x y h
    simp only [evKey, removedEdgeEvent, Prod.mk.injEq, true_and] at h
    exact Prod.ext h.1 h.2
  have hCmem2 : ∀ (k : String × String) (x : String × String × String),
      x ∈ (eventsForKey b c k).map evKey → x.2 = k := by
    intro k x hx
    rcases List.mem_map.mp hx with ⟨e, he, rfl⟩
    exact (eventsForKey_mem he).1
  have hC : ((commonKeys b c).map (fun k => (eventsForKey b c k).map evKey)).flatten.Nodup := by
    rw [List.nodup_flatten]
    constructor
    · intro l hl
      rcases List.mem_map.mp hl with ⟨k, -, rfl⟩
      exact eventsForKey_keys_nodup b c k
    · refine List.Pairwise.map _ ?_ hCkeys
      intro a b' hab x hxa hxb
      exact hab ((hCmem2 a x hxa) ▸ (hCmem2 b' x hxb))
  have hDmem2 : ∀ (svc : String) (x : String × String × String),
      x ∈ (blastEventsFor b c svc).map evKey → x.2.1 = svc := by
    intro svc x hx
    rcases List.mem_map.mp hx with ⟨e, he, rfl⟩
    exact (blastEventsFor_mem he).2.1
  have hD : ((blastSources b c).map (fun s => (blastEventsFor b c s).map evKey)).flatten.Nodup := by
    rw [List.nodup_flatten]
    constructor
    · intro l hl
      rcases List.mem_map.mp hl with ⟨svc, -, rfl⟩
      exact blastEventsFor_keys_nodup b c svc
    · refine List.Pairwise.map _ ?_ hDkeys
      intro a b' hab x hxa hxb
      exact hab ((hDmem2 a x hxa) ▸ (hDmem2 b' x hxb))
  have hAm : ∀ x ∈ (newKeys b c).map (fun k => evKey (newEdgeEvent k)), x.1 = "new_edge" := by
    intro x hx
    rcases List.mem_map.mp hx with ⟨k, -, rfl⟩
    rfl
  have hBm : ∀ x ∈ (removedKeys b c).map (fun k => evKey (removedEdgeEvent k)), x.1 = "removed_edge" := by
    intro x hx
    rcases List.mem_map.mp hx with ⟨k, -, rfl⟩
    rfl
  have hCm : ∀ x ∈ ((commonKeys b c).map (fun k => (eventsForKey b c k).map evKey)).flatten,
      x.1 = "error_spike" ∨ x.1 = "latency_spike" ∨ x.1 = "traffic_spike" := by
    intro x hx
    rcases List.mem_flatten.mp hx with ⟨l, hl, hxl⟩
    rcases List.mem_map.mp hl with ⟨k, -, rfl⟩
    rcases List.mem_map.mp hxl with ⟨e, he, rfl⟩
    exact (eventsForKey_mem he).2
  have hDm : ∀ x ∈ ((blastSources b c).map (fun s => (blastEventsFor b c s).map evKey)).flatten,
      x.1 = "blast_radius_increase" := by
    intro x hx
    rcases List.mem_flatten.mp hx with ⟨l, hl, hxl⟩
    rcases List.mem_map.mp hl with ⟨svc, -, rfl⟩
    rcases List.mem_map.mp hxl with ⟨e, he, rfl⟩
    exact (blastEventsFor_mem he).1
  have hCD : ((commonKeys b c).map (fun k => (eventsForKey b c k).map evKey)).flatten.Disjoint
      ((blastSources b c).map (fun s => (blastEventsFor b c s).map evKey)).flatten := by
    intro x hxC hxD
    rcases hCm x hxC with h | h | h <;> rw [hDm x hxD] at h <;> exact absurd h (by decide)
  have hBCD : ((removedKeys b c).map (fun k => evKey (removedEdgeEvent k))).Disjoint
      (((commonKeys b c).map (fun k => (eventsForKey b c k).map evKey)).flatten ++
        ((blastSources b c).map (fun s => (blastEventsFor b c s).map evKey)).flatten) := by
    intro x hxB hx
    have hb' := hBm x hxB
    rcases List.mem_append.mp hx with h | h
    · rcases hCm x h with h' | h' | h' <;> rw [hb'] at h' <;> exact absurd h' (by decide)
    · have hh := hDm x h
      rw [hb'] at hh
      exact absurd hh (by decide)
  have hABCD : ((newKeys b c).map (fun k => evKey (newEdgeEvent k))).Disjoint
      (((removedKeys b c).map (fun k => evKey (removedEdgeEvent k))) ++
        (((commonKeys b c).map (fun k => (eventsForKey b c k).map evKey)).flatten ++
          ((blastSources b c).map (fun s => (blastEventsFor b c s).map evKey)).flatten)) := by
    intro x hxA hx
    have ha' := hAm x hxA
    rcases List.mem_append.mp hx with h | h
    · have hh := hBm x h
      rw [ha'] at hh
      exact absurd hh (by decide)
    · rcases List.mem_append.mp h with h' | h'
      · rcases hCm x h' with h'' | h'' | h'' <;> rw [ha'] at h'' <;> exact absurd h'' (by decide)
      · have hh := hDm x h'
        rw [ha'] at hh
        exact absurd hh (by decide)
  exact hA.append (hB.append (hC.append hD hCD) hBCD) hABCD

end SGD

namespace SGD

theorem C6_score_event_clamp_bands_writeback_w :
    baseScoreOf "reconfigured" = 10 :=
  (C6_score_event_clamp_bands_writeback
      { event_type := "reconfigured", source := "a", destination := "b" }
    ).2.2.2.2.2.2.2.2.2.2.2.2 "reconfigured" (by decide)

end SGD
